import Mathlib

/-!
Shallow embedding of `src/posting/widgets/datatable.py` (class
`PostingDataTable`, a subclass of Textual's `DataTable`).

The table state is modelled as a structure; the ordered mapping
`self._data : dict[RowKey, dict[ColumnKey, cell]]` becomes an ordered list of
rows, each carrying an association list from column keys to cell values (the
dict of a row is built, as in the library, by zipping the column keys with the
supplied cells at `add_row` time).  Methods that post messages, call
`_update_column_widths` or transfer focus return, besides the new state, a
trace of primitive events in the order the Python statements execute them;
posting events record the row count at the moment of posting, mutation events
the row count just after the mutation, so that "posted before the mutation"
is about observable snapshots rather than mere syntax.

Operations of the base class `DataTable` (an external library, described by
the spec as part of the grid-model contract) are modelled from the spec where
they matter: `coordinate_to_cell_key` and `get_cell` fail with
`CellDoesNotExist` exactly when the coordinate or the keys are stale/out of
range, `add_row`/`add_column` append, `remove_row` deletes by key preserving
order, and the base cursor actions perform a clamped single step.
-/

/-- Row and column keys: either an explicit string key supplied by the caller
or an auto-generated fresh key (the library generates a fresh identity when
`key` is `None`; we model that with a counter carried in the table state). -/
inductive TKey where
  | named (s : String)
  | autoKey (n : Nat)
deriving DecidableEq, Repr

/-- The `PostingDataTable.Checkbox` dataclass: a boolean `checked` flag
(default `False` in the dataclass declaration). -/
structure Checkbox where
  checked : Bool
deriving DecidableEq, Repr

/-- `Checkbox.toggle`: negates the flag and returns the new state. -/
def Checkbox.toggle (c : Checkbox) : Checkbox × Bool :=
  let c' : Checkbox := ⟨!c.checked⟩
  (c', c'.checked)

/-- A cell value: plain/rich text (opaque to the model) or a `Checkbox`. -/
inductive Cell where
  | text (s : String)
  | checkbox (c : Checkbox)
deriving DecidableEq, Repr

/-- A column: identity key, display label, optional configured width. -/
structure Column where
  key : TKey
  label : String
  width : Option Nat
deriving DecidableEq, Repr

/-- A row: identity key, association list from column keys to cell values
(the per-row dict of the library), optional height and label. -/
structure Row where
  key : TKey
  cells : List (TKey × Cell)
  height : Option Nat
  label : Option String
deriving DecidableEq, Repr

/-- Python exceptions that can cross the method boundaries we model:
`CellDoesNotExist` and `RowDoesNotExist` from the data-table library, and
`AttributeError` (raised if `toggle()` is called on a non-Checkbox value). -/
inductive PyError where
  | cellDoesNotExist
  | rowDoesNotExist
  | attributeError
deriving DecidableEq, Repr

/-- The cursor display mode (`self.cursor_type`), an enumerated value in the
library: `"cell" | "row" | "column" | "none"`. -/
inductive CursorType where
  | cell
  | row
  | column
  | noCursor
deriving DecidableEq, Repr

/-- Primitive observable events of one method call, in execution order. -/
inductive TraceEvent where
  | postRowsAdded (explicit_by_user : Bool) (rowCountAtPost : Nat)
  | postRowsRemoved (explicit_by_user : Bool) (rowCountAtPost : Nat)
  | mutatedRows (rowCountAfter : Nat)
  | refreshedWidths (cellKeys : List (TKey × TKey))
  | focusNext
  | focusPrevious
deriving DecidableEq, Repr

/-- The state of a `PostingDataTable`: columns, rows, the flags set in
`__init__` (`cursor_vertical_escape`, `row_disable`, `_fixed_columns_bak`),
the inherited cursor state (`cursor_coordinate`, `show_cursor`,
`cursor_type`, `_show_hover_cursor`), `fixed_columns`, the `_update_count`
refresh counter, and a counter for generating fresh auto keys. -/
structure PostingDataTable where
  columns : List Column
  rows : List Row
  row_disable : Bool
  cursor_vertical_escape : Bool
  show_cursor : Bool
  cursor_type : CursorType
  cursor_row : Int
  cursor_col : Int
  fixed_columns : Nat
  fixed_columns_bak : Option Nat
  show_hover_cursor : Bool
  update_count : Nat
  key_counter : Nat
deriving DecidableEq, Repr

namespace PostingDataTable

/-- `self.row_count`. -/
def row_count (t : PostingDataTable) : Nat := t.rows.length

/-- Lookup of a row by key in `self._data` (first row with that key). -/
def findRow (t : PostingDataTable) (rk : TKey) : Option Row :=
  t.rows.find? (fun r => r.key == rk)

/-- Lookup of a cell value in a row's column dict. -/
def assocCell (cells : List (TKey × Cell)) (ck : TKey) : Option Cell :=
  (cells.find? (fun p => p.1 == ck)).map (fun p => p.2)

/-- Modelled from the spec: `get_cell(row_key, column_key)` of the base
class — returns the stored value, failing with `CellDoesNotExist` (here
`none`) when the row key or the column key is absent. -/
def get_cell (t : PostingDataTable) (rk ck : TKey) : Option Cell :=
  (t.findRow rk).bind (fun r => assocCell r.cells ck)

/-- Modelled from the spec: the base class's coordinate validity check —
a coordinate is valid iff `0 ≤ row < row_count` and `0 ≤ col < column
count`. -/
def is_valid_coordinate (t : PostingDataTable) (row col : Int) : Bool :=
  0 ≤ row && row < (t.rows.length : Int) && 0 ≤ col && col < (t.columns.length : Int)

/-- Modelled from the spec: `coordinate_to_cell_key(coordinate)` of the base
class — resolves a valid coordinate to `(row_key, column_key)` through the
ordered rows and columns, failing with `CellDoesNotExist` (here `none`) on an
out-of-range or stale coordinate. -/
def coordinate_to_cell_key (t : PostingDataTable) (row col : Int) :
    Option (TKey × TKey) :=
  if t.is_valid_coordinate row col then
    match t.rows.get? row.toNat, t.columns.get? col.toNat with
    | some r, some c => some (r.key, c.key)
    | _, _ => none
  else
    none

/-- The cell keys `_column_width_refresh` passes to `_update_column_widths`
when `row_count > 0`: `CellKey(row_zero, column)` for `row_zero` the first
key of `self._data` and `column` ranging over the keys of the first row's
cell dict. -/
def column_width_refresh_keys (t : PostingDataTable) : List (TKey × TKey) :=
  match t.rows with
  | [] => []
  | r :: _ => r.cells.map (fun p => (r.key, p.1))

/-- The trace of `self._column_width_refresh()`: when `row_count > 0` it
calls `_update_column_widths` once with the first row's cell keys; on an
empty table it does nothing. -/
def column_width_refresh_trace (t : PostingDataTable) : List TraceEvent :=
  match t.rows with
  | [] => []
  | r :: _ => [TraceEvent.refreshedWidths (r.cells.map (fun p => (r.key, p.1)))]

/-- `PostingDataTable.add_row(*cells, height, key, label, explicit_by_user,
sender)`: if `row_disable`, prepends `Checkbox(True)` to the supplied cells;
posts a `RowsAdded` message; then the base `add_row` appends a row whose cell
dict zips the column keys with the cells.  Returns the new state and the
event trace in execution order. -/
def add_row (t : PostingDataTable) (cells : List Cell) (key : Option String)
    (height : Option Nat) (label : Option String) (explicit_by_user : Bool) :
    PostingDataTable × List TraceEvent :=
  let cells := if t.row_disable then Cell.checkbox ⟨true⟩ :: cells else cells
  let postEv := TraceEvent.postRowsAdded explicit_by_user t.rows.length
  let rk := match key with
    | some s => TKey.named s
    | none => TKey.autoKey t.key_counter
  let counter := match key with
    | some _ => t.key_counter
    | none => t.key_counter + 1
  let newRow : Row :=
    ⟨rk, (t.columns.zip cells).map (fun p => (p.1.key, p.2)), height, label⟩
  let t' := { t with rows := t.rows ++ [newRow], key_counter := counter }
  (t', [postEv, TraceEvent.mutatedRows t'.rows.length])

/-- `PostingDataTable.add_column(label, width, key, default)`: if
`row_disable` and no columns exist yet, first appends a checkbox column
(empty label, width 1, key `"checkbox"`); then the base `add_column` appends
the requested column.  Returns the new state and the new column's key. -/
def add_column (t : PostingDataTable) (label : String) (width : Option Nat)
    (key : Option String) : PostingDataTable × TKey :=
  let t :=
    if t.row_disable && t.columns.length == 0 then
      { t with columns := t.columns ++ [⟨TKey.named "checkbox", "", some 1⟩] }
    else t
  let ck := match key with
    | some s => TKey.named s
    | none => TKey.autoKey t.key_counter
  let counter := match key with
    | some _ => t.key_counter
    | none => t.key_counter + 1
  ({ t with columns := t.columns ++ [⟨ck, label, width⟩], key_counter := counter }, ck)

/-- `action_toggle_fixed_columns`: on first invocation remembers
`fixed_columns` in `_fixed_columns_bak`; then sets `fixed_columns` to the
backup if it is currently `0`, else to `0`. -/
def action_toggle_fixed_columns (t : PostingDataTable) : PostingDataTable :=
  let bak := match t.fixed_columns_bak with
    | none => t.fixed_columns
    | some b => b
  { t with
      fixed_columns_bak := some bak,
      fixed_columns := if t.fixed_columns == 0 then bak else 0 }

/-- `PostingDataTable.remove_row(row_key)`: posts `RowsRemoved`, then the
base `remove_row` deletes the row (raising `RowDoesNotExist` when the key is
absent — the message is still posted first, but an erroring call is modelled
as the error alone), then `_column_width_refresh()`. -/
def remove_row (t : PostingDataTable) (rk : TKey) :
    Except PyError (PostingDataTable × List TraceEvent) :=
  let postEv := TraceEvent.postRowsRemoved true t.rows.length
  if t.rows.any (fun r => r.key == rk) then
    let t' := { t with rows := t.rows.filter (fun r => !(r.key == rk)) }
    Except.ok (t',
      [postEv, TraceEvent.mutatedRows t'.rows.length] ++ column_width_refresh_trace t')
  else
    Except.error PyError.rowDoesNotExist

/-- `PostingDataTable.clear(columns)`: posts `RowsRemoved(explicit_by_user =
False)`, then the base `clear` removes all rows (and the column definitions
when `columns` is true), then `_column_width_refresh()` (a no-op on the now
empty table). -/
def clear (t : PostingDataTable) (columns : Bool) :
    PostingDataTable × List TraceEvent :=
  let postEv := TraceEvent.postRowsRemoved false t.rows.length
  let t' := { t with rows := [], columns := if columns then [] else t.columns }
  (t', [postEv, TraceEvent.mutatedRows 0] ++ column_width_refresh_trace t')

/-- The `for row in rows: self.add_row(*row, explicit_by_user=False)` loop of
`replace_all_rows`. -/
def addAllRows : PostingDataTable → List (List Cell) →
    PostingDataTable × List TraceEvent
  | t, [] => (t, [])
  | t, row :: rest =>
    let p := add_row t row none (some 1) none false
    let q := addAllRows p.1 rest
    (q.1, p.2 ++ q.2)

/-- `PostingDataTable.replace_all_rows(rows)`: `clear()`, then each row added
as non-user-initiated, then one `_column_width_refresh()` at the end. -/
def replace_all_rows (t : PostingDataTable) (rows : List (List Cell)) :
    PostingDataTable × List TraceEvent :=
  let p := clear t false
  let q := addAllRows p.1 rows
  (q.1, p.2 ++ q.2 ++ column_width_refresh_trace q.1)

/-- Modelled from the spec: the base single-step-down behaviour the action
delegates to when the cursor is hidden or the mode does not address rows
(one step down, clamped at the last row; no focus transfer). -/
def base_cursor_down (t : PostingDataTable) : PostingDataTable :=
  if t.cursor_row < (t.rows.length : Int) - 1 then
    { t with cursor_row := t.cursor_row + 1 }
  else t

/-- Modelled from the spec: the base single-step-up behaviour (one step up,
clamped at row 0; no focus transfer). -/
def base_cursor_up (t : PostingDataTable) : PostingDataTable :=
  if 0 < t.cursor_row then { t with cursor_row := t.cursor_row - 1 } else t

/-- `action_cursor_down`: clears the hover cursor; on the last row with
`cursor_vertical_escape` it calls `self.screen.focus_next()`; otherwise, with
the cursor shown and a `cell`/`row` cursor type, wraps from the last row to
row 0 or advances one row; otherwise delegates to the base action. -/
def action_cursor_down (t : PostingDataTable) :
    PostingDataTable × List TraceEvent :=
  let t := { t with show_hover_cursor := false }
  if t.cursor_row == (t.rows.length : Int) - 1 && t.cursor_vertical_escape then
    (t, [TraceEvent.focusNext])
  else if t.show_cursor && (t.cursor_type == CursorType.cell || t.cursor_type == CursorType.row) then
    if t.cursor_row == (t.rows.length : Int) - 1 then
      ({ t with cursor_row := 0 }, [])
    else
      ({ t with cursor_row := t.cursor_row + 1 }, [])
  else
    (base_cursor_down t, [])

/-- `action_cursor_up`: clears the hover cursor; on row 0 with
`cursor_vertical_escape` it calls `self.screen.focus_previous()`; otherwise,
with the cursor shown and a `cell`/`row` cursor type, wraps from row 0 to
the last row or steps up one row; otherwise delegates to the base action. -/
def action_cursor_up (t : PostingDataTable) :
    PostingDataTable × List TraceEvent :=
  let t := { t with show_hover_cursor := false }
  if t.cursor_row == 0 && t.cursor_vertical_escape then
    (t, [TraceEvent.focusPrevious])
  else if t.show_cursor && (t.cursor_type == CursorType.cell || t.cursor_type == CursorType.row) then
    if t.cursor_row == 0 then
      ({ t with cursor_row := (t.rows.length : Int) - 1 }, [])
    else
      ({ t with cursor_row := t.cursor_row - 1 }, [])
  else
    (base_cursor_up t, [])

/-- Updates the value stored under column key `ck` in one row's cell dict,
leaving rows with a different key untouched. -/
def set_row_cell (rk ck : TKey) (v : Cell) (r : Row) : Row :=
  if r.key == rk then
    { r with cells := r.cells.map (fun p => if p.1 == ck then (p.1, v) else p) }
  else r

/-- Writes a value into one row's cell dict (the in-place mutation of the
shared `Checkbox` object in `action_toggle_row`, rendered in value-passing
style; each `add_row` creates a fresh `Checkbox`, so no sharing exists
between rows). -/
def set_cell_value (t : PostingDataTable) (rk ck : TKey) (v : Cell) :
    PostingDataTable :=
  { t with rows := t.rows.map (set_row_cell rk ck v) }

/-- The try-block body of `action_remove_row`: resolve the cursor to a cell
key, take its row key, and call `remove_row`. -/
def action_remove_row_body (t : PostingDataTable) :
    Except PyError (PostingDataTable × List TraceEvent) :=
  match t.coordinate_to_cell_key t.cursor_row t.cursor_col with
  | none => Except.error PyError.cellDoesNotExist
  | some (rk, _) => remove_row t rk

/-- `action_remove_row`: the body wrapped in
`try: ... except CellDoesNotExist: pass`. -/
def action_remove_row (t : PostingDataTable) :
    Except PyError (PostingDataTable × List TraceEvent) :=
  match action_remove_row_body t with
  | Except.error PyError.cellDoesNotExist => Except.ok (t, [])
  | r => r

/-- The try-block body of `action_toggle_row`: resolve the cursor to a cell
key, `get_cell(row_key, "checkbox")`, toggle the checkbox in place, bump
`_update_count` and refresh.  Calling `toggle()` on a non-Checkbox value
would raise `AttributeError`. -/
def action_toggle_row_body (t : PostingDataTable) :
    Except PyError PostingDataTable :=
  match t.coordinate_to_cell_key t.cursor_row t.cursor_col with
  | none => Except.error PyError.cellDoesNotExist
  | some (rk, _) =>
    match t.get_cell rk (TKey.named "checkbox") with
    | none => Except.error PyError.cellDoesNotExist
    | some (Cell.checkbox cb) =>
      let t' := t.set_cell_value rk (TKey.named "checkbox")
        (Cell.checkbox (cb.toggle).1)
      Except.ok { t' with update_count := t'.update_count + 1 }
    | some (Cell.text _) => Except.error PyError.attributeError

/-- `action_toggle_row`: the body wrapped in
`try: ... except CellDoesNotExist: pass`. -/
def action_toggle_row (t : PostingDataTable) :
    Except PyError PostingDataTable :=
  match action_toggle_row_body t with
  | Except.error PyError.cellDoesNotExist => Except.ok t
  | r => r

/-- The arguments of the `_update_column_widths` calls appearing in a trace,
in order. -/
def refresh_events (tr : List TraceEvent) : List (List (TKey × TKey)) :=
  tr.filterMap (fun e => match e with
    | TraceEvent.refreshedWidths ks => some ks
    | _ => none)

/-- Following the spec's words, for comparison with the code: the cell keys
of a width re-measuring scan over the full current row set ("scanning the
full current row set (not a cached first row)"). -/
def full_row_scan_keys (t : PostingDataTable) : List (TKey × TKey) :=
  t.rows.flatMap (fun r => r.cells.map (fun p => (r.key, p.1)))

/-- A sequence of `n` invocations of `action_toggle_fixed_columns`. -/
def iterate_toggle : Nat → PostingDataTable → PostingDataTable
  | 0, t => t
  | n + 1, t => iterate_toggle n t.action_toggle_fixed_columns

/-- States of the fixed-columns toggle reachable from a fresh widget: either
the backup is still unset, or the current count is `0`, or the current count
equals the remembered backup. -/
def toggle_state_ok (t : PostingDataTable) : Prop :=
  t.fixed_columns_bak = none ∨ t.fixed_columns = 0 ∨
    t.fixed_columns_bak = some t.fixed_columns

end PostingDataTable

open PostingDataTable

/-- A table state as produced by `__init__`: the given flags and contents,
cursor at the origin, shown, in cell mode, no fixed columns, no backup. -/
def mkTable (rd esc : Bool) (cols : List Column) (rows : List Row) :
    PostingDataTable :=
  { columns := cols, rows := rows, row_disable := rd,
    cursor_vertical_escape := esc, show_cursor := true,
    cursor_type := CursorType.cell, cursor_row := 0, cursor_col := 0,
    fixed_columns := 0, fixed_columns_bak := none, show_hover_cursor := true,
    update_count := 0, key_counter := 0 }

/-- The checkbox column the widget auto-inserts. -/
def checkboxColumn : Column := ⟨TKey.named "checkbox", "", some 1⟩

/-- A business-data column used in the concrete scenarios. -/
def nameColumn : Column := ⟨TKey.named "c1", "Name", none⟩

/-- A concrete row as `add_row` builds it in row-selection mode. -/
def sampleRow (key : String) (v : String) (checked : Bool) : Row :=
  ⟨TKey.named key,
    [(TKey.named "checkbox", Cell.checkbox ⟨checked⟩),
     (TKey.named "c1", Cell.text v)],
    some 1, none⟩

/-- An empty grid in row-selection mode with vertical escape enabled. -/
def emptyGrid : PostingDataTable := mkTable true true [checkboxColumn, nameColumn] []

/-- A two-row grid in row-selection mode. -/
def twoRowGrid : PostingDataTable :=
  mkTable true true [checkboxColumn, nameColumn]
    [sampleRow "r1" "a" true, sampleRow "r2" "c" true]

/-- A three-row grid in row-selection mode. -/
def threeRowGrid : PostingDataTable :=
  mkTable true true [checkboxColumn, nameColumn]
    [sampleRow "r1" "a" true, sampleRow "r2" "c" true, sampleRow "r3" "e" true]

/-- A grid displayed with two fixed columns. -/
def fixedGrid : PostingDataTable := { twoRowGrid with fixed_columns := 2 }

/-- The event trace of removing row `r3` from `threeRowGrid`. -/
def removeTrace3 : List TraceEvent :=
  [TraceEvent.postRowsRemoved true 3, TraceEvent.mutatedRows 2,
   TraceEvent.refreshedWidths
     [(TKey.named "r1", TKey.named "checkbox"), (TKey.named "r1", TKey.named "c1")]]

/-- C1 counterexample: with row-selection enabled, adding a row with one
business cell to `emptyGrid` prepends a `Checkbox` whose `checked` flag is
`true`, not `false` as the claim states. -/
theorem C1_counterexample :
    ((emptyGrid.add_row [Cell.text "a"] (some "r1") (some 1) none true).1.rows.head?.bind
        (fun r => r.cells.head?))
      = some (TKey.named "checkbox", Cell.checkbox ⟨true⟩) ∧
    Cell.checkbox ⟨true⟩ ≠ Cell.checkbox ⟨false⟩ := by
  constructor
  · rfl
  · decide

/-- C1 (amended): for every sequence of `add_row` calls on a grid with
row-selection enabled (and at least the checkbox column present), the
Checkbox cell automatically prepended to each row's supplied cells has
initial checked state `true` — the appended row's first cell is a fresh
checked Checkbox under the first column's key. -/
theorem C1_add_row_prepends_checked_checkbox
    (t : PostingDataTable) (cells : List Cell) (key : Option String)
    (height : Option Nat) (label : Option String) (e : Bool)
    (hd : t.row_disable = true) (c : Column) (cs : List Column)
    (hc : t.columns = c :: cs) :
    ((t.add_row cells key height label e).1.rows.getLast?.bind
        (fun r => r.cells.head?))
      = some (c.key, Cell.checkbox ⟨true⟩) ∧
    (t.add_row cells key height label e).1.rows.length = t.rows.length + 1 := by
  cases key <;>
    simp [PostingDataTable.add_row, hd, hc, List.getLast?_concat]

/-- Witness for the amended C1 at a concrete input. -/
theorem C1_add_row_prepends_checked_checkbox_witness :
    ((emptyGrid.add_row [Cell.text "a"] (some "r1") (some 1) none true).1.rows.getLast?.bind
        (fun r => r.cells.head?))
      = some (checkboxColumn.key, Cell.checkbox ⟨true⟩) ∧
    (emptyGrid.add_row [Cell.text "a"] (some "r1") (some 1) none true).1.rows.length
      = emptyGrid.rows.length + 1 :=
  C1_add_row_prepends_checked_checkbox emptyGrid [Cell.text "a"] (some "r1")
    (some 1) none true rfl checkboxColumn [nameColumn] rfl

/-- One invocation of the fixed-columns toggle keeps the state in the set of
states reachable from a fresh widget. -/
theorem toggle_preserves_state_ok (t : PostingDataTable)
    (h : toggle_state_ok t) : toggle_state_ok t.action_toggle_fixed_columns := by
  unfold toggle_state_ok PostingDataTable.action_toggle_fixed_columns at *
  rcases h with h | h | h
  · by_cases hz : t.fixed_columns = 0 <;> simp [h, hz]
  · cases hb : t.fixed_columns_bak <;> simp [h, hb]
  · by_cases hz : t.fixed_columns = 0 <;> simp [h, hz]

/-- Any number of toggle invocations keeps the state reachable. -/
theorem toggle_iterate_state_ok (t : PostingDataTable) (h : toggle_state_ok t)
    (n : Nat) : toggle_state_ok (iterate_toggle n t) := by
  induction n generalizing t with
  | zero => exact h
  | succ n ih => exact ih _ (toggle_preserves_state_ok t h)

/-- In every reachable toggle state, two invocations restore the
fixed-columns count. -/
theorem toggle_pair_fixed (t : PostingDataTable) (h : toggle_state_ok t) :
    t.action_toggle_fixed_columns.action_toggle_fixed_columns.fixed_columns
      = t.fixed_columns := by
  unfold toggle_state_ok at h
  unfold PostingDataTable.action_toggle_fixed_columns
  rcases h with h | h | h
  · by_cases hz : t.fixed_columns = 0 <;> simp [h, hz]
  · cases hb : t.fixed_columns_bak with
    | none => simp [h, hb]
    | some b => by_cases hbz : b = 0 <;> simp [h, hb, hbz]
  · by_cases hz : t.fixed_columns = 0 <;> simp [h, hz]

/-- C3: from any state reached from a fresh widget (backup unset) by a
sequence of toggle-fixed-columns invocations — including states where the
backup was set by an earlier invocation — invoking the command twice more
returns the fixed-columns count to its current value. -/
theorem C3_toggle_fixed_columns_pair_idempotent (t0 : PostingDataTable)
    (n : Nat) (h : t0.fixed_columns_bak = none) :
    (iterate_toggle n t0).action_toggle_fixed_columns.action_toggle_fixed_columns.fixed_columns
      = (iterate_toggle n t0).fixed_columns :=
  toggle_pair_fixed _ (toggle_iterate_state_ok t0 (Or.inl h) n)

/-- Witness for C3 at a concrete input: a grid shown with two fixed columns,
after three toggle invocations (so the backup is set). -/
theorem C3_toggle_fixed_columns_pair_idempotent_witness :
    (iterate_toggle 3 fixedGrid).action_toggle_fixed_columns.action_toggle_fixed_columns.fixed_columns
      = (iterate_toggle 3 fixedGrid).fixed_columns :=
  C3_toggle_fixed_columns_pair_idempotent fixedGrid 3 rfl

/-- C4: on a grid with at least one row, the cursor on the last row and
vertical escape enabled, `action_cursor_down` leaves the cursor coordinate
unchanged and performs exactly one `focus_next` call. -/
theorem C4_cursor_down_last_row_escapes (t : PostingDataTable)
    (h1 : 1 ≤ t.rows.length)
    (h2 : t.cursor_row = (t.rows.length : Int) - 1)
    (h3 : t.cursor_vertical_escape = true) :
    (t.action_cursor_down).1.cursor_row = t.cursor_row ∧
    (t.action_cursor_down).1.cursor_col = t.cursor_col ∧
    (t.action_cursor_down).2 = [TraceEvent.focusNext] := by
  unfold PostingDataTable.action_cursor_down
  simp [h2, h3]

/-- Witness for C4 at a concrete input: `twoRowGrid` with the cursor on its
last row. -/
theorem C4_cursor_down_last_row_escapes_witness :
    (({ twoRowGrid with cursor_row := 1 }).action_cursor_down).1.cursor_row
        = ({ twoRowGrid with cursor_row := 1 } : PostingDataTable).cursor_row ∧
    (({ twoRowGrid with cursor_row := 1 }).action_cursor_down).1.cursor_col
        = ({ twoRowGrid with cursor_row := 1 } : PostingDataTable).cursor_col ∧
    (({ twoRowGrid with cursor_row := 1 }).action_cursor_down).2
        = [TraceEvent.focusNext] :=
  C4_cursor_down_last_row_escapes { twoRowGrid with cursor_row := 1 }
    (by decide) (by decide) rfl

/-- C6: with row-selection enabled and no columns yet, `add_column` silently
inserts the checkbox column (key `"checkbox"`, width 1) at position 0 before
the requested column; once any column exists, `add_column` only appends the
requested column and never re-inserts the checkbox column. -/
theorem C6_add_column_inserts_checkbox_once (t : PostingDataTable)
    (label : String) (width : Option Nat) (key : Option String) :
    (t.row_disable = true → t.columns = [] →
      (t.add_column label width key).1.columns.head? = some checkboxColumn ∧
      (t.add_column label width key).1.columns.length = 2) ∧
    (t.columns ≠ [] →
      (t.add_column label width key).1.columns.dropLast = t.columns ∧
      (t.add_column label width key).1.columns.length = t.columns.length + 1) := by
  constructor
  · intro hd hc
    cases key <;>
      simp [PostingDataTable.add_column, hd, hc, checkboxColumn]
  · intro hc
    have hlen : (t.columns.length == 0) = false := by
      simp [List.length_eq_zero]
      exact hc
    cases key <;>
      simp [PostingDataTable.add_column, hlen, List.dropLast_concat]

/-- Witness for C6 at concrete inputs: the first `add_column` on a fresh
row-selection grid. -/
theorem C6_add_column_inserts_checkbox_once_witness :
    ((mkTable true true [] []).row_disable = true → (mkTable true true [] []).columns = [] →
      ((mkTable true true [] []).add_column "Name" none (some "c1")).1.columns.head?
          = some checkboxColumn ∧
      ((mkTable true true [] []).add_column "Name" none (some "c1")).1.columns.length = 2) ∧
    ((mkTable true true [] []).columns ≠ [] →
      ((mkTable true true [] []).add_column "Name" none (some "c1")).1.columns.dropLast
          = (mkTable true true [] []).columns ∧
      ((mkTable true true [] []).add_column "Name" none (some "c1")).1.columns.length
          = (mkTable true true [] []).columns.length + 1) :=
  C6_add_column_inserts_checkbox_once (mkTable true true [] []) "Name" none (some "c1")

/-- C7: whenever the cursor-derived cell lookup fails, both
`action_remove_row` and `action_toggle_row` absorb the `CellDoesNotExist`
condition: they return the unchanged state, post nothing, and propagate no
error. -/
theorem C7_actions_absorb_cell_not_found (t : PostingDataTable)
    (h : t.coordinate_to_cell_key t.cursor_row t.cursor_col = none) :
    t.action_remove_row = Except.ok (t, []) ∧
    t.action_toggle_row = Except.ok t := by
  constructor
  · unfold PostingDataTable.action_remove_row PostingDataTable.action_remove_row_body
    rw [h]
  · unfold PostingDataTable.action_toggle_row PostingDataTable.action_toggle_row_body
    rw [h]

/-- Witness for C7 at a concrete input: the empty grid, whose cursor lookup
fails. -/
theorem C7_actions_absorb_cell_not_found_witness :
    emptyGrid.action_remove_row = Except.ok (emptyGrid, []) ∧
    emptyGrid.action_toggle_row = Except.ok emptyGrid :=
  C7_actions_absorb_cell_not_found emptyGrid rfl

/-- C8: for every `add_row` and every successful `remove_row`, the
structural notification is posted strictly before the mutation is applied:
it is the first event of the trace, carries the pre-mutation row count, and
precedes the mutation event that carries the post-mutation count. -/
theorem C8_notification_posted_before_mutation :
    (∀ (t : PostingDataTable) (cells : List Cell) (key : Option String)
        (height : Option Nat) (label : Option String) (e : Bool),
      (t.add_row cells key height label e).2
        = [TraceEvent.postRowsAdded e t.rows.length,
           TraceEvent.mutatedRows (t.rows.length + 1)]) ∧
    (∀ (t : PostingDataTable) (rk : TKey) (t' : PostingDataTable)
        (tr : List TraceEvent),
      t.remove_row rk = Except.ok (t', tr) →
      tr.take 2 = [TraceEvent.postRowsRemoved true t.rows.length,
                   TraceEvent.mutatedRows t'.rows.length]) := by
  constructor
  · intro t cells key height label e
    cases key <;> simp [PostingDataTable.add_row]
  · intro t rk t' tr h
    unfold PostingDataTable.remove_row at h
    split at h
    · rw [Except.ok.injEq, Prod.mk.injEq] at h
      obtain ⟨h1, h2⟩ := h
      subst h1
      subst h2
      simp [List.take]
    · exact absurd h (by simp)

/-- Witness for C8 at concrete inputs. -/
theorem C8_notification_posted_before_mutation_witness :
    (emptyGrid.add_row [Cell.text "a"] (some "r1") (some 1) none true).2
      = [TraceEvent.postRowsAdded true emptyGrid.rows.length,
         TraceEvent.mutatedRows (emptyGrid.rows.length + 1)] ∧
    removeTrace3.take 2
      = [TraceEvent.postRowsRemoved true threeRowGrid.rows.length,
         TraceEvent.mutatedRows twoRowGrid.rows.length] :=
  ⟨C8_notification_posted_before_mutation.1 emptyGrid [Cell.text "a"]
      (some "r1") (some 1) none true,
   C8_notification_posted_before_mutation.2 threeRowGrid (TKey.named "r3")
      twoRowGrid removeTrace3 rfl⟩

/-- C9: with vertical escape disabled, the cursor shown and a `cell` or
`row` cursor mode, `action_cursor_down` on the last row of a non-empty grid
wraps the cursor to row 0 in the same column, on a non-last row advances it
by exactly one row, and in both cases transfers no focus. -/
theorem C9_cursor_down_wraps_or_advances (t : PostingDataTable)
    (hesc : t.cursor_vertical_escape = false)
    (hshow : t.show_cursor = true)
    (hmode : t.cursor_type = CursorType.cell ∨ t.cursor_type = CursorType.row)
    (hrows : 1 ≤ t.rows.length)
    (hlo : 0 ≤ t.cursor_row)
    (hhi : t.cursor_row < (t.rows.length : Int)) :
    (t.cursor_row = (t.rows.length : Int) - 1 →
      (t.action_cursor_down).1.cursor_row = 0) ∧
    (t.cursor_row < (t.rows.length : Int) - 1 →
      (t.action_cursor_down).1.cursor_row = t.cursor_row + 1) ∧
    (t.action_cursor_down).1.cursor_col = t.cursor_col ∧
    (t.action_cursor_down).2 = [] := by
  have hmode' : (t.cursor_type == CursorType.cell || t.cursor_type == CursorType.row) = true := by
    rcases hmode with h | h <;> simp [h]
  unfold PostingDataTable.action_cursor_down
  by_cases hlast : t.cursor_row = (t.rows.length : Int) - 1
  · simp [hesc, hshow, hmode', hlast]
  · have hne : (t.cursor_row == (t.rows.length : Int) - 1) = false := by
      simp [hlast]
    simp [hesc, hshow, hmode', hne, hlast]

/-- Witness for C9 at a concrete input: `twoRowGrid` without vertical
escape, cursor on row 0. -/
theorem C9_cursor_down_wraps_or_advances_witness :
    (({ twoRowGrid with cursor_vertical_escape := false } : PostingDataTable).cursor_row
        = ((({ twoRowGrid with cursor_vertical_escape := false } : PostingDataTable).rows.length : Int) - 1) →
      (({ twoRowGrid with cursor_vertical_escape := false }).action_cursor_down).1.cursor_row = 0) ∧
    (({ twoRowGrid with cursor_vertical_escape := false } : PostingDataTable).cursor_row
        < ((({ twoRowGrid with cursor_vertical_escape := false } : PostingDataTable).rows.length : Int) - 1) →
      (({ twoRowGrid with cursor_vertical_escape := false }).action_cursor_down).1.cursor_row
        = ({ twoRowGrid with cursor_vertical_escape := false } : PostingDataTable).cursor_row + 1) ∧
    (({ twoRowGrid with cursor_vertical_escape := false }).action_cursor_down).1.cursor_col
        = ({ twoRowGrid with cursor_vertical_escape := false } : PostingDataTable).cursor_col ∧
    (({ twoRowGrid with cursor_vertical_escape := false }).action_cursor_down).2 = [] :=
  C9_cursor_down_wraps_or_advances { twoRowGrid with cursor_vertical_escape := false }
    rfl rfl (Or.inl rfl) (by decide) (by decide) (by decide)

/-- C10: on an empty grid with vertical escape enabled (cursor at row 0),
`action_cursor_up` makes exactly one `focus_previous` call, while
`action_cursor_down` makes no focus-transfer call at all — the two
boundary-escape tests are asymmetric on the empty grid, because the
last-row test compares row 0 against row count minus one, which is -1. -/
theorem C10_empty_grid_escape_asymmetry (t : PostingDataTable)
    (hrows : t.rows = []) (hcur : t.cursor_row = 0)
    (hesc : t.cursor_vertical_escape = true) :
    (t.action_cursor_up).2 = [TraceEvent.focusPrevious] ∧
    (t.action_cursor_down).2 = [] := by
  constructor
  · unfold PostingDataTable.action_cursor_up
    simp [hcur, hesc]
  · have h0 : ((0 : Int) == (0 : Int) - 1) = false := by decide
    have h0' : ((0 : Int) == -1) = false := by decide
    unfold PostingDataTable.action_cursor_down PostingDataTable.base_cursor_down
    cases hs : t.show_cursor <;> cases hct : t.cursor_type <;>
      simp [hrows, hcur, hesc, hs, hct, h0, h0']

/-- Witness for C10 at a concrete input: the empty grid. -/
theorem C10_empty_grid_escape_asymmetry_witness :
    (emptyGrid.action_cursor_up).2 = [TraceEvent.focusPrevious] ∧
    (emptyGrid.action_cursor_down).2 = [] :=
  C10_empty_grid_escape_asymmetry emptyGrid rfl rfl rfl

/-- `refresh_events` distributes over trace concatenation. -/
theorem refresh_events_append (tr1 tr2 : List TraceEvent) :
    refresh_events (tr1 ++ tr2) = refresh_events tr1 ++ refresh_events tr2 :=
  List.filterMap_append tr1 tr2 _

/-- The refresh helper calls `_update_column_widths` once with the current
first row's cell keys, or not at all when the table is empty. -/
theorem refresh_events_refresh_trace (t : PostingDataTable) :
    refresh_events (column_width_refresh_trace t)
      = if t.rows.isEmpty then [] else [column_width_refresh_keys t] := by
  unfold PostingDataTable.column_width_refresh_trace PostingDataTable.column_width_refresh_keys
  cases h : t.rows <;> simp [h, refresh_events]

/-- `add_row` performs no column-width refresh. -/
theorem refresh_events_add_row (t : PostingDataTable) (cells : List Cell)
    (key : Option String) (height : Option Nat) (label : Option String)
    (e : Bool) :
    refresh_events (t.add_row cells key height label e).2 = [] := rfl

/-- The row-adding loop of `replace_all_rows` performs no column-width
refresh. -/
theorem refresh_events_addAllRows (t : PostingDataTable)
    (rows : List (List Cell)) :
    refresh_events (addAllRows t rows).2 = [] := by
  induction rows generalizing t with
  | nil => rfl
  | cons r rest ih =>
    show refresh_events ((t.add_row r none (some 1) none false).2
        ++ (addAllRows (t.add_row r none (some 1) none false).1 rest).2) = []
    rw [refresh_events_append, refresh_events_add_row, ih]
    rfl

/-- C2 counterexample: removing row `r3` from the three-row grid triggers a
width refresh that re-measures only the first row's cells, not the full
current row set — the re-measured key set differs from a full scan of the
two remaining rows. -/
theorem C2_counterexample :
    threeRowGrid.remove_row (TKey.named "r3")
        = Except.ok (twoRowGrid, removeTrace3) ∧
    refresh_events removeTrace3 ≠ [full_row_scan_keys twoRowGrid] := by
  constructor
  · rfl
  · decide

/-- C2 (amended): after each of `remove_row`, `clear` and
`replace_all_rows`, the column-width refresh re-measures, from the current
post-mutation row set (not a cached one), the cells of that row set's first
row only — nothing when it is empty. -/
theorem C2_refresh_measures_current_first_row :
    (∀ (t : PostingDataTable) (rk : TKey) (t' : PostingDataTable)
        (tr : List TraceEvent),
      t.remove_row rk = Except.ok (t', tr) →
      refresh_events tr
        = if t'.rows.isEmpty then [] else [column_width_refresh_keys t']) ∧
    (∀ (t : PostingDataTable) (c : Bool),
      refresh_events (t.clear c).2 = []) ∧
    (∀ (t : PostingDataTable) (rows : List (List Cell)),
      refresh_events (t.replace_all_rows rows).2
        = if (t.replace_all_rows rows).1.rows.isEmpty then []
          else [column_width_refresh_keys (t.replace_all_rows rows).1]) := by
  refine ⟨?_, ?_, ?_⟩
  · intro t rk t' tr h
    unfold PostingDataTable.remove_row at h
    split at h
    · rw [Except.ok.injEq, Prod.mk.injEq] at h
      obtain ⟨h1, h2⟩ := h
      subst h1
      subst h2
      rw [show ([TraceEvent.postRowsRemoved true t.rows.length,
            TraceEvent.mutatedRows (t.rows.filter (fun r => !(r.key == rk))).length]
          : List TraceEvent)
          = [TraceEvent.postRowsRemoved true t.rows.length]
            ++ [TraceEvent.mutatedRows (t.rows.filter (fun r => !(r.key == rk))).length]
          from rfl]
      rw [List.append_assoc, refresh_events_append, refresh_events_append]
      rw [refresh_events_refresh_trace]
      rfl
    · exact absurd h (by simp)
  · intro t c
    rfl
  · intro t rows
    show refresh_events ((t.clear false).2 ++ (addAllRows (t.clear false).1 rows).2
        ++ column_width_refresh_trace (addAllRows (t.clear false).1 rows).1) = _
    rw [refresh_events_append, refresh_events_append, refresh_events_addAllRows]
    rw [refresh_events_refresh_trace]
    rfl

/-- Witness for the amended C2 at concrete inputs. -/
theorem C2_refresh_measures_current_first_row_witness :
    (refresh_events removeTrace3
      = if twoRowGrid.rows.isEmpty then []
        else [column_width_refresh_keys twoRowGrid]) ∧
    refresh_events (emptyGrid.clear false).2 = [] ∧
    (refresh_events (emptyGrid.replace_all_rows [[Cell.text "a"]]).2
      = if (emptyGrid.replace_all_rows [[Cell.text "a"]]).1.rows.isEmpty then []
        else [column_width_refresh_keys (emptyGrid.replace_all_rows [[Cell.text "a"]]).1]) :=
  ⟨C2_refresh_measures_current_first_row.1 threeRowGrid (TKey.named "r3")
      twoRowGrid removeTrace3 rfl,
   C2_refresh_measures_current_first_row.2.1 emptyGrid false,
   C2_refresh_measures_current_first_row.2.2 emptyGrid [[Cell.text "a"]]⟩

/-- `set_row_cell` never changes a row's key. -/
theorem set_row_cell_key (rk ck : TKey) (v : Cell) (r : Row) :
    (set_row_cell rk ck v r).key = r.key := by
  unfold PostingDataTable.set_row_cell
  split <;> rfl

/-- Looking up a row with a key different from the updated one is unaffected
by `set_row_cell` mapping. -/
theorem find_map_set_ne (rows : List Row) (rk ck : TKey) (v : Cell)
    (rk' : TKey) (h : rk' ≠ rk) :
    (rows.map (set_row_cell rk ck v)).find? (fun r => r.key == rk')
      = rows.find? (fun r => r.key == rk') := by
  induction rows with
  | nil => rfl
  | cons r rest ih =>
    simp only [List.map_cons]
    by_cases hr : r.key = rk'
    · have hrk : r.key ≠ rk := by rw [hr]; exact h
      have hfix : set_row_cell rk ck v r = r := by
        unfold PostingDataTable.set_row_cell
        simp [hrk]
      rw [hfix, List.find?_cons_of_pos _ (by simp [hr]),
        List.find?_cons_of_pos _ (by simp [hr])]
    · rw [List.find?_cons_of_neg _ (by rw [set_row_cell_key]; simp [hr]),
        List.find?_cons_of_neg _ (by simp [hr])]
      exact ih

/-- Looking up the updated row's key after the `set_row_cell` mapping finds
the updated image of the row found before. -/
theorem find_map_set_eq (rows : List Row) (rk ck : TKey) (v : Cell) :
    (rows.map (set_row_cell rk ck v)).find? (fun r => r.key == rk)
      = (rows.find? (fun r => r.key == rk)).map (set_row_cell rk ck v) := by
  induction rows with
  | nil => rfl
  | cons r rest ih =>
    simp only [List.map_cons]
    by_cases hr : r.key = rk
    · rw [List.find?_cons_of_pos _ (by rw [set_row_cell_key]; simp [hr]),
        List.find?_cons_of_pos _ (by simp [hr])]
      rfl
    · rw [List.find?_cons_of_neg _ (by rw [set_row_cell_key]; simp [hr]),
        List.find?_cons_of_neg _ (by simp [hr])]
      exact ih

/-- If a column key is present in a cell dict, the in-place update stores the
new value under it. -/
theorem assocCell_map_set (cells : List (TKey × Cell)) (ck : TKey) (v : Cell)
    (h : (assocCell cells ck).isSome) :
    assocCell (cells.map (fun p => if p.1 == ck then (p.1, v) else p)) ck
      = some v := by
  induction cells with
  | nil => simp [assocCell] at h
  | cons p rest ih =>
    by_cases hp : p.1 = ck
    · unfold PostingDataTable.assocCell
      simp only [List.map_cons, if_pos (show (p.1 == ck) = true by simp [hp])]
      rw [List.find?_cons_of_pos _ (by simp [hp])]
      rfl
    · unfold PostingDataTable.assocCell at h ⊢
      simp only [List.map_cons, if_neg (show ¬((p.1 == ck) = true) by simp [hp])]
      rw [List.find?_cons_of_neg _ (by simp [hp])] at h ⊢
      exact ih h

/-- C5: `action_toggle_row` on an empty grid is a no-op raising no error;
when the cursor resolves to a row whose checkbox cell holds a `Checkbox`, it
flips exactly that row's checkbox flag and leaves the checkbox state of
every other row unchanged. -/
theorem C5_toggle_row_flips_exactly_one (t : PostingDataTable) :
    (t.rows = [] → t.action_toggle_row = Except.ok t) ∧
    (∀ (rk ck : TKey) (cb : Checkbox),
      t.coordinate_to_cell_key t.cursor_row t.cursor_col = some (rk, ck) →
      t.get_cell rk (TKey.named "checkbox") = some (Cell.checkbox cb) →
      ∃ t' : PostingDataTable, t.action_toggle_row = Except.ok t' ∧
        t'.get_cell rk (TKey.named "checkbox")
          = some (Cell.checkbox ⟨!cb.checked⟩) ∧
        (∀ rk' : TKey, rk' ≠ rk →
          t'.get_cell rk' (TKey.named "checkbox")
            = t.get_cell rk' (TKey.named "checkbox")) ∧
        t'.rows.length = t.rows.length) := by
  constructor
  · intro h
    have hv : t.is_valid_coordinate t.cursor_row t.cursor_col = false := by
      cases hb : t.is_valid_coordinate t.cursor_row t.cursor_col
      · rfl
      · exfalso
        unfold PostingDataTable.is_valid_coordinate at hb
        rw [h] at hb
        simp only [List.length_nil, Nat.cast_zero, Bool.and_eq_true,
          decide_eq_true_eq] at hb
        omega
    have hc : t.coordinate_to_cell_key t.cursor_row t.cursor_col = none := by
      unfold PostingDataTable.coordinate_to_cell_key
      simp [hv]
    unfold PostingDataTable.action_toggle_row PostingDataTable.action_toggle_row_body
    rw [hc]
  · intro rk ck cb h1 h2
    refine ⟨{ t with
        rows := t.rows.map (set_row_cell rk (TKey.named "checkbox")
          (Cell.checkbox ⟨!cb.checked⟩)),
        update_count := t.update_count + 1 }, ?_, ?_, ?_, ?_⟩
    · unfold PostingDataTable.action_toggle_row PostingDataTable.action_toggle_row_body
      simp only [h1]
      simp only [h2]
      rfl
    · unfold PostingDataTable.get_cell PostingDataTable.findRow at h2
      cases hfr : t.rows.find? (fun r => r.key == rk) with
      | none =>
        rw [hfr] at h2
        exact Option.noConfusion h2
      | some r =>
        rw [hfr] at h2
        have hassoc : assocCell r.cells (TKey.named "checkbox")
            = some (Cell.checkbox cb) := by
          rw [← h2]
          rfl
        show ((t.rows.map (set_row_cell rk (TKey.named "checkbox")
            (Cell.checkbox ⟨!cb.checked⟩))).find? (fun r => r.key == rk)).bind
            (fun r => assocCell r.cells (TKey.named "checkbox"))
          = some (Cell.checkbox ⟨!cb.checked⟩)
        rw [find_map_set_eq, hfr]
        have hkey0 := List.find?_some hfr
        have hkey : (r.key == rk) = true := hkey0
        show assocCell (set_row_cell rk (TKey.named "checkbox")
            (Cell.checkbox ⟨!cb.checked⟩) r).cells (TKey.named "checkbox")
          = some (Cell.checkbox ⟨!cb.checked⟩)
        unfold PostingDataTable.set_row_cell
        rw [if_pos hkey]
        exact assocCell_map_set r.cells (TKey.named "checkbox")
          (Cell.checkbox ⟨!cb.checked⟩) (by rw [hassoc]; rfl)
    · intro rk' hne
      show ((t.rows.map (set_row_cell rk (TKey.named "checkbox")
          (Cell.checkbox ⟨!cb.checked⟩))).find? (fun r => r.key == rk')).bind
          (fun r => assocCell r.cells (TKey.named "checkbox"))
        = (t.rows.find? (fun r => r.key == rk')).bind
          (fun r => assocCell r.cells (TKey.named "checkbox"))
      rw [find_map_set_ne _ _ _ _ _ hne]
    · simp

/-- Witness for C5 at concrete inputs: the empty grid, and `twoRowGrid` with
the cursor on row 0. -/
theorem C5_toggle_row_flips_exactly_one_witness :
    emptyGrid.action_toggle_row = Except.ok emptyGrid ∧
    (∃ t' : PostingDataTable, twoRowGrid.action_toggle_row = Except.ok t' ∧
      t'.get_cell (TKey.named "r1") (TKey.named "checkbox")
        = some (Cell.checkbox ⟨!(Checkbox.mk true).checked⟩) ∧
      (∀ rk' : TKey, rk' ≠ TKey.named "r1" →
        t'.get_cell rk' (TKey.named "checkbox")
          = twoRowGrid.get_cell rk' (TKey.named "checkbox")) ∧
      t'.rows.length = twoRowGrid.rows.length) :=
  ⟨(C5_toggle_row_flips_exactly_one emptyGrid).1 rfl,
   (C5_toggle_row_flips_exactly_one twoRowGrid).2 (TKey.named "r1")
     (TKey.named "checkbox") ⟨true⟩ rfl rfl⟩
